import Mathlib

/-!
Shallow embedding, in Lean 4, of the payroll computation core of the
`agent-hr` repository (files `src/models.py`, `src/agents.py`,
`src/payroll_workflow.py`, `src/rag_system.py`), together with theorems
settling the specification claims about it.

Modelling conventions:
* Python floats are modelled as exact rationals (`ℚ`).  `round(x, 2)` is
  modelled by `round2` below using Mathlib's integer `round`; Python's
  float `round` differs only on exact half-cent ties, which no claim
  depends on.
* `Optional[float]` fields are `Option ℚ`; Python truthiness of a numeric
  optional (`None` and `0.0` falsy) is `truthyNum`.
* Free-text fields that no computation reads back (calculation notes,
  review notes, formatted currency inside message strings) are abstracted:
  numbers are interpolated with `toString` instead of `"%.2f"` formatting.
* Functions that can raise in Python are embedded with `Except`
  (`PyError` for attribute/zero-division errors inside the anomaly
  detector); functions whose bodies are total are embedded as total.
-/

namespace AgentHR

/-- Model of Python `round(x, 2)`: round to two decimal places. -/
def round2 (x : ℚ) : ℚ := (round (x * 100) : ℤ) / 100

/-- Python truthiness of an optional number: `None` and `0` are falsy. -/
def truthyNum (o : Option ℚ) : Bool :=
  match o with
  | some x => decide (x ≠ 0)
  | none => false

/-- Substring test, modelling Python's `needle in haystack`. -/
def strContains (needle haystack : String) : Bool :=
  decide (List.IsInfix needle.toList haystack.toList)

/-- ASCII lowering of one character; all strings this code lowercases and
compares are ASCII, so this models Python's `str.lower` on them. -/
def charLower (c : Char) : Char :=
  if 65 ≤ c.toNat ∧ c.toNat ≤ 90 then Char.ofNat (c.toNat + 32) else c

/-- Model of Python's `str.lower()`. -/
def strLower (s : String) : String := String.mk (s.data.map charLower)

/-! ## Data model (`src/models.py`) -/

/-- Embedding of `models.EmployeeInfo` (all fields `Optional[str]`). -/
structure EmployeeInfo where
  employee_name : Option String := none
  employee_id : Option String := none
  department : Option String := none
  designation : Option String := none
  location : Option String := none
  joining_date : Option String := none
  pan_number : Option String := none
  pf_number : Option String := none
  esi_number : Option String := none
deriving Repr, DecidableEq

/-- Embedding of `models.SalaryStructure`. -/
structure SalaryStructure where
  basic : Option ℚ := none
  hra : Option ℚ := none
  allowances : Option ℚ := none
  special_allowance : Option ℚ := none
  medical_allowance : Option ℚ := none
  transport_allowance : Option ℚ := none
  meal_allowance : Option ℚ := none
  gross : Option ℚ := none
  variable_pay : Option ℚ := none
  bonus : Option ℚ := none
  is_annual : Option Bool := some false
deriving Repr, DecidableEq

/-- Embedding of `models.Deductions` (seven fields, default 0). -/
structure Deductions where
  pf : ℚ := 0
  esi : ℚ := 0
  professional_tax : ℚ := 0
  tds : ℚ := 0
  advance : ℚ := 0
  loan_deduction : ℚ := 0
  other_deductions : ℚ := 0
deriving Repr, DecidableEq

/-- Sum of the seven `Deductions` fields, as in
`sum(deductions.dict().values())`. -/
def sumDeductions (d : Deductions) : ℚ :=
  d.pf + d.esi + d.professional_tax + d.tds + d.advance + d.loan_deduction +
    d.other_deductions

/-- Embedding of `models.ContractData` restricted to the fields the computation reads
(`benefits`, `special_clauses`, `extracted_text`, `parsing_confidence`,
`notes` are carried but never read by any modelled stage and are
omitted). -/
structure ContractData where
  employee_info : EmployeeInfo := {}
  salary_structure : SalaryStructure := {}
deriving Repr, DecidableEq

/-- Embedding of `models.SalaryBreakdown` (the free-text `calculation_notes` field,
never read back by any computation, is omitted). -/
structure SalaryBreakdown where
  gross_salary : ℚ
  basic_salary : ℚ
  hra : ℚ
  allowances : ℚ
  deductions : Deductions
  net_salary : ℚ
  annual_gross : ℚ
  annual_net : ℚ
deriving Repr, DecidableEq

/-! ## SalaryBreakdownAgent (`src/agents.py` lines 232-408) -/

/-- The dict returned by `SalaryBreakdownAgent._calculate_gross_components`. -/
structure GrossComponents where
  basic : ℚ
  hra : ℚ
  allowances : ℚ
  total : ℚ
deriving Repr, DecidableEq

/-- Embedding of `SalaryBreakdownAgent._calculate_gross_components`. -/
def calcGrossComponents (s : SalaryStructure) : GrossComponents :=
  let basic := s.basic.getD 0
  let hra := s.hra.getD 0
  let allowances := s.allowances.getD 0
  let special_allowance := s.special_allowance.getD 0
  let medical_allowance := s.medical_allowance.getD 0
  let transport_allowance := s.transport_allowance.getD 0
  let meal_allowance := s.meal_allowance.getD 0
  -- `if salary_structure.gross and (basic + hra + allowances) == 0:`
  let bha :=
    if truthyNum s.gross = true ∧ basic + hra + allowances = 0 then
      let g := s.gross.getD 0
      let b := g * 0.4
      let h := b * 0.5
      (b, h, g - b - h)
    -- `elif basic > 0 and not salary_structure.gross:`
    else if basic > 0 ∧ truthyNum s.gross = false then
      let h := if hra = 0 then basic * 0.5 else hra
      let a := if allowances = 0 then basic * 0.15 else allowances
      (basic, h, a)
    else (basic, hra, allowances)
  let total_allowances := bha.2.2 + special_allowance + medical_allowance +
    transport_allowance + meal_allowance
  let total := bha.1 + bha.2.1 + total_allowances
  { basic := bha.1, hra := bha.2.1, allowances := total_allowances, total := total }

/-- Embedding of `SalaryBreakdownAgent._calculate_professional_tax` (receives the
already-lowercased location string). -/
def calcProfessionalTax (gross_salary : ℚ) (location : String) : ℚ :=
  if strContains "karnataka" location then
    if gross_salary ≤ 15000 then 0
    else if gross_salary ≤ 25000 then 200
    else 300
  else if strContains "maharashtra" location then
    if gross_salary ≤ 5000 then 0
    else if gross_salary ≤ 10000 then 175
    else 200
  else if strContains "west bengal" location ∨ strContains "bengal" location then
    if gross_salary ≤ 10000 then 110
    else if gross_salary ≤ 15000 then 130
    else 200
  else if strContains "tamil nadu" location then 200
  else if gross_salary > 15000 then 200 else 0

/-- Embedding of `SalaryBreakdownAgent._calculate_tds`. -/
def calcTds (annual_gross : ℚ) : ℚ :=
  let taxable_income := max 0 (annual_gross - 50000)
  let tax : ℚ :=
    if taxable_income > 250000 then
      if taxable_income ≤ 500000 then (taxable_income - 250000) * 0.05
      else if taxable_income ≤ 1000000 then
        250000 * 0.05 + (taxable_income - 500000) * 0.20
      else 250000 * 0.05 + 500000 * 0.20 + (taxable_income - 1000000) * 0.30
    else 0
  let tax_with_cess := tax * 1.04
  tax_with_cess / 12

/-- Python `(employee_info.location or "Karnataka").lower()` (empty string
is falsy, like `None`). -/
def effectiveLocation (info : EmployeeInfo) : String :=
  strLower
    (match info.location with
     | some l => if l = "" then "Karnataka" else l
     | none => "Karnataka")

/-- Embedding of `SalaryBreakdownAgent._calculate_deductions`. -/
def calcDeductions (gross_components : GrossComponents) (info : EmployeeInfo) :
    Deductions :=
  let basic := gross_components.basic
  let gross := gross_components.total
  let pf := if basic > 0 then min (basic * 0.12) 1800 else 0
  let esi := if gross ≤ 21000 then gross * 0.0075 else 0
  let location := effectiveLocation info
  let professional_tax := calcProfessionalTax gross location
  let annual_gross := gross * 12
  let tds := calcTds annual_gross
  { pf := round2 pf, esi := round2 esi,
    professional_tax := round2 professional_tax, tds := round2 tds,
    advance := 0, loan_deduction := 0, other_deductions := 0 }

/-- Embedding of `SalaryBreakdownAgent._process`: total on well-typed input (its body
raises nothing). -/
def salaryProcess (cd : ContractData) : SalaryBreakdown :=
  let gross_components := calcGrossComponents cd.salary_structure
  let deductions := calcDeductions gross_components cd.employee_info
  let net_salary := gross_components.total - sumDeductions deductions
  { gross_salary := gross_components.total,
    basic_salary := gross_components.basic,
    hra := gross_components.hra,
    allowances := gross_components.allowances,
    deductions := deductions,
    net_salary := max 0 net_salary,
    annual_gross := gross_components.total * 12,
    annual_net := max 0 net_salary * 12 }

/-! ## ContractReaderAgent annual conversion (`src/agents.py` lines 202-213)

The surrounding `_structure_contract_data` only wraps LLM-parsed dicts into
the typed model; the computational part relevant to the claims is the
annual-to-monthly conversion block, embedded here. -/

/-- One field of the conversion: `if salary_structure.f: salary_structure.f
= salary_structure.f / 12` (Python truthiness: `None` and `0.0` skip). -/
def divideIfTruthy (o : Option ℚ) : Option ℚ :=
  match o with
  | some x => if x ≠ 0 then some (x / 12) else some x
  | none => none

/-- The `if salary_structure.is_annual:` conversion block of
`ContractReaderAgent._structure_contract_data`: divides `basic`, `hra`,
`allowances` and `gross` by 12 and clears the flag; touches no other
field. -/
def structureSalaryConversion (s : SalaryStructure) : SalaryStructure :=
  if s.is_annual = some true then
    { s with
      basic := divideIfTruthy s.basic,
      hra := divideIfTruthy s.hra,
      allowances := divideIfTruthy s.allowances,
      gross := divideIfTruthy s.gross,
      is_annual := some false }
  else s

/-! ## RuleStore retrieval (`src/rag_system.py`) and ComplianceMapperAgent
(`src/agents.py` lines 411-583)

The vector store and embedding backend (`chromadb`, `embed_query`,
`collection.query`) are external services; they are modelled as an oracle
that, for a query string, either returns retrieved document contents or
raises an internal fault.  Everything the repository's own code does with
the oracle's answer is embedded faithfully. -/

/-- The external retrieval backend: returns document contents per query, or
fails with an internal error. -/
def RuleOracle : Type := String → Except String (List String)

/-- Embedding of `PayrollRAGSystem.search_compliance_rules`: the whole backend
interaction sits inside `try: ... except: return []`, so any oracle fault
degrades to the empty result list. -/
def searchComplianceRules (oracle : RuleOracle) (query : String) :
    List String :=
  match oracle query with
  | .ok docs => docs
  | .error _ => []

/-- The dict built by `PayrollRAGSystem.get_pf_rules`. -/
structure PFRuleInfo where
  employee_rate : ℚ
  employer_rate : ℚ
  max_contribution : ℚ
  applicable : Bool
  calculation_base : String
  rules : List String
deriving Repr, DecidableEq

/-- The dict built by `PayrollRAGSystem.get_esi_rules`. -/
structure ESIRuleInfo where
  employee_rate : ℚ
  employer_rate : ℚ
  salary_limit : ℚ
  applicable : Bool
  rules : List String
deriving Repr, DecidableEq

/-- The dict built by `PayrollRAGSystem.get_tax_rules`. -/
structure TaxRuleInfo where
  standard_deduction : ℚ
  section_80c_limit : ℚ
  applicable_slab : String
  rules : List String
deriving Repr, DecidableEq

/-- The dict built by `PayrollRAGSystem.get_professional_tax_rules`. -/
structure PTRuleInfo where
  state : String
  monthly_amount : ℚ
  applicable : Bool
  rules : List String
deriving Repr, DecidableEq

/-- The dict returned by `PayrollRAGSystem.get_all_applicable_rules`. -/
structure RuleSet where
  pf_rules : PFRuleInfo
  esi_rules : ESIRuleInfo
  tax_rules : TaxRuleInfo
  professional_tax_rules : PTRuleInfo
deriving Repr, DecidableEq

/-- Embedding of `PayrollRAGSystem.get_pf_rules`. -/
def getPfRules (oracle : RuleOracle) (basic_salary : ℚ) : PFRuleInfo :=
  { employee_rate := 0.12, employer_rate := 0.12, max_contribution := 1800,
    applicable := true, calculation_base := "basic_salary",
    rules := searchComplianceRules oracle
      ("PF provident fund contribution rules basic salary " ++
        toString basic_salary) }

/-- Embedding of `PayrollRAGSystem.get_esi_rules`. -/
def getEsiRules (oracle : RuleOracle) (gross_salary : ℚ) : ESIRuleInfo :=
  let applicable := decide (gross_salary ≤ 21000)
  { employee_rate := if applicable then 0.0075 else 0,
    employer_rate := if applicable then 0.0325 else 0,
    salary_limit := 21000, applicable := applicable,
    rules := searchComplianceRules oracle
      ("ESI employee state insurance contribution rules gross salary " ++
        toString gross_salary) }

/-- Embedding of `PayrollRAGSystem._get_tax_slab`. -/
def getTaxSlab (annual_income : ℚ) : String :=
  if annual_income ≤ 250000 then "0%"
  else if annual_income ≤ 500000 then "5%"
  else if annual_income ≤ 1000000 then "20%"
  else "30%"

/-- Embedding of `PayrollRAGSystem.get_tax_rules`. -/
def getTaxRules (oracle : RuleOracle) (annual_income : ℚ) : TaxRuleInfo :=
  { standard_deduction := 50000, section_80c_limit := 150000,
    applicable_slab := getTaxSlab annual_income,
    rules := searchComplianceRules oracle
      ("income tax TDS rules annual income " ++ toString annual_income ++
        " tax slabs") }

/-- Embedding of `PayrollRAGSystem._calculate_professional_tax` (same step table as the
agent's copy, but lowercases its `state` argument itself). -/
def ragCalcProfessionalTax (state : String) (gross_salary : ℚ) : ℚ :=
  let state_lower := strLower state
  if strContains "karnataka" state_lower then
    if gross_salary ≤ 15000 then 0
    else if gross_salary ≤ 25000 then 200
    else 300
  else if strContains "maharashtra" state_lower then
    if gross_salary ≤ 5000 then 0
    else if gross_salary ≤ 10000 then 175
    else 200
  else if strContains "west bengal" state_lower ∨
      strContains "bengal" state_lower then
    if gross_salary ≤ 10000 then 110
    else if gross_salary ≤ 15000 then 130
    else 200
  else if strContains "tamil nadu" state_lower then 200
  else if gross_salary > 15000 then 200 else 0

/-- Embedding of `PayrollRAGSystem.get_professional_tax_rules`. -/
def getProfessionalTaxRules (oracle : RuleOracle) (state : String)
    (gross_salary : ℚ) : PTRuleInfo :=
  let pt_amount := ragCalcProfessionalTax state gross_salary
  { state := state, monthly_amount := pt_amount,
    applicable := decide (pt_amount > 0),
    rules := searchComplianceRules oracle
      ("professional tax rules " ++ state ++ " salary " ++
        toString gross_salary) }

/-- Embedding of `PayrollRAGSystem.get_all_applicable_rules`.  Note the code recomputes
`annual_income = gross_salary * 12` itself; its body is total for
well-typed employee data, so the outer `except: return {}` branch is
unreachable here. -/
def getAllApplicableRules (oracle : RuleOracle) (basic_salary gross_salary : ℚ)
    (state : String) : RuleSet :=
  { pf_rules := getPfRules oracle basic_salary,
    esi_rules := getEsiRules oracle gross_salary,
    tax_rules := getTaxRules oracle (gross_salary * 12),
    professional_tax_rules := getProfessionalTaxRules oracle state gross_salary }

/-- Embedding of `models.ComplianceStatus`. -/
inductive ComplianceStatus where
  | COMPLIANT
  | NON_COMPLIANT
  | REVIEW_REQUIRED
deriving Repr, DecidableEq

/-- Embedding of `models.ComplianceValidation`. -/
structure ComplianceValidation where
  compliance_status : ComplianceStatus
  issues : List String
  validated_deductions : Deductions
  recommendations : List String
  applied_rules : List String
  confidence_score : ℚ
deriving Repr, DecidableEq

/-- Result triple of the per-deduction validators: issues, recommendations,
applied rules. -/
structure ValidationPart where
  issues : List String
  recommendations : List String
  applied_rules : List String
deriving Repr, DecidableEq

/-- Embedding of `ComplianceMapperAgent._validate_pf` (its `pf_rules` argument is never
read by the code). -/
def validatePf (sb : SalaryBreakdown) (_pf_rules : PFRuleInfo) :
    ValidationPart :=
  let calculated_pf := min (sb.basic_salary * 0.12) 1800
  let actual_pf := sb.deductions.pf
  let mismatch := decide (|calculated_pf - actual_pf| > 1)
  { issues :=
      if mismatch then
        ["PF calculation mismatch: Expected " ++ toString calculated_pf ++
          ", Got " ++ toString actual_pf]
      else [],
    recommendations :=
      (if mismatch then
        ["Recalculate PF as 12% of basic salary with Rs.1800 monthly cap"]
      else []) ++
      (if sb.basic_salary > 15000 ∧ actual_pf ≠ 1800 then
        ["Consider voluntary PF contribution above statutory limit"]
      else []),
    applied_rules := ["PF: 12% of basic salary, max Rs.1800/month"] }

/-- Embedding of `ComplianceMapperAgent._validate_esi` (its `esi_rules` argument is never
read by the code). -/
def validateEsi (sb : SalaryBreakdown) (_esi_rules : ESIRuleInfo) :
    ValidationPart :=
  if sb.gross_salary ≤ 21000 then
    let calculated_esi := sb.gross_salary * 0.0075
    let actual_esi := sb.deductions.esi
    let mismatch := decide (|calculated_esi - actual_esi| > 1)
    { issues :=
        if mismatch then
          ["ESI calculation mismatch: Expected " ++ toString calculated_esi ++
            ", Got " ++ toString actual_esi]
        else [],
      recommendations :=
        if mismatch then ["Recalculate ESI as 0.75% of gross salary"] else [],
      applied_rules :=
        ["ESI: 0.75% of gross salary for employees earning <= Rs.21,000/month"] }
  else
    { issues :=
        if sb.deductions.esi > 0 then
          ["ESI deducted for employee earning > Rs.21,000/month"]
        else [],
      recommendations :=
        if sb.deductions.esi > 0 then
          ["Remove ESI deduction as employee exceeds salary limit"]
        else [],
      applied_rules :=
        ["ESI: 0.75% of gross salary for employees earning <= Rs.21,000/month"] }

/-- Embedding of `ComplianceMapperAgent._validate_professional_tax`. -/
def validateProfessionalTax (sb : SalaryBreakdown) (pt_rules : PTRuleInfo) :
    ValidationPart :=
  let state := pt_rules.state
  let expected_pt := pt_rules.monthly_amount
  let actual_pt := sb.deductions.professional_tax
  let mismatch := decide (|expected_pt - actual_pt| > 5)
  { issues :=
      if mismatch then
        ["Professional Tax mismatch: Expected " ++ toString expected_pt ++
          ", Got " ++ toString actual_pt]
      else [],
    recommendations :=
      if mismatch then ["Apply correct " ++ state ++ " professional tax rates"]
      else [],
    applied_rules := ["Professional Tax: " ++ state ++ " state rules applied"] }

/-- Embedding of `ComplianceMapperAgent._validate_tds` (its `tax_rules` argument is never
read by the code). -/
def validateTds (sb : SalaryBreakdown) (_tax_rules : TaxRuleInfo) :
    ValidationPart :=
  { issues :=
      if sb.deductions.tds > sb.gross_salary * 0.3 then
        ["TDS appears unusually high - please verify calculation"]
      else [],
    recommendations :=
      (if sb.annual_gross > 300000 ∧ sb.deductions.tds = 0 then
        ["Review TDS calculation for income above exemption limit"]
      else []) ++
      (if sb.deductions.tds > sb.gross_salary * 0.3 then
        ["Check TDS calculation considering all exemptions and deductions"]
      else []),
    applied_rules :=
      ["TDS: Calculated based on current income tax slabs with standard deduction"] }

/-- Embedding of `ComplianceMapperAgent._calculate_confidence_score`. -/
def calcConfidenceScore (issues applied_rules : List String) : ℚ :=
  let base_score : ℚ := 0.9
  let score_reduction := (issues.length : ℚ) * 0.1
  let confidence := max 0.5 (base_score - score_reduction)
  let rule_boost := min 0.1 ((applied_rules.length : ℚ) * 0.02)
  round2 (min 1 (confidence + rule_boost))

/-- Embedding of `ComplianceMapperAgent._create_validated_deductions`. -/
def createValidatedDeductions (sb : SalaryBreakdown)
    (applicable_rules : RuleSet) : Deductions :=
  let correct_pf := min (sb.basic_salary * 0.12) 1800
  let correct_esi := if sb.gross_salary ≤ 21000 then sb.gross_salary * 0.0075
    else 0
  let correct_pt := applicable_rules.professional_tax_rules.monthly_amount
  { pf := round2 correct_pf, esi := round2 correct_esi,
    professional_tax := round2 correct_pt, tds := sb.deductions.tds,
    advance := sb.deductions.advance,
    loan_deduction := sb.deductions.loan_deduction,
    other_deductions := sb.deductions.other_deductions }

/-- Embedding of `ComplianceMapperAgent._process` (state hard-coded to "Karnataka" as in
the source); total on well-typed input. -/
def complianceProcess (oracle : RuleOracle) (sb : SalaryBreakdown) :
    ComplianceValidation :=
  let applicable_rules :=
    getAllApplicableRules oracle sb.basic_salary sb.gross_salary "Karnataka"
  let pf_validation := validatePf sb applicable_rules.pf_rules
  let esi_validation := validateEsi sb applicable_rules.esi_rules
  let pt_validation :=
    validateProfessionalTax sb applicable_rules.professional_tax_rules
  let tds_validation := validateTds sb applicable_rules.tax_rules
  let issues := pf_validation.issues ++ esi_validation.issues ++
    pt_validation.issues ++ tds_validation.issues
  let recommendations := pf_validation.recommendations ++
    esi_validation.recommendations ++ pt_validation.recommendations ++
    tds_validation.recommendations
  let applied_rules := pf_validation.applied_rules ++
    esi_validation.applied_rules ++ pt_validation.applied_rules ++
    tds_validation.applied_rules
  let status_from_count :=
    if issues.length = 0 then ComplianceStatus.COMPLIANT
    else ComplianceStatus.NON_COMPLIANT
  let compliance_status :=
    if issues.any (fun issue => strContains "review" (strLower issue)) then
      ComplianceStatus.REVIEW_REQUIRED
    else status_from_count
  { compliance_status := compliance_status,
    issues := issues,
    validated_deductions := createValidatedDeductions sb applicable_rules,
    recommendations := recommendations,
    applied_rules := applied_rules,
    confidence_score := calcConfidenceScore issues applied_rules }

/-! ## AnomalyDetectorAgent (`src/agents.py` lines 585-806)

Two helper checks dereference `salary_data` without a `None` guard and
divide by `gross_salary` without a zero guard, so `_process` is embedded
with `Except PyError`. -/

/-- The Python exceptions the anomaly detector can raise. -/
inductive PyError where
  | attributeError (msg : String)
  | zeroDivisionError
deriving Repr, DecidableEq

/-- Embedding of `models.SeverityLevel`. -/
inductive SeverityLevel where
  | LOW
  | MEDIUM
  | HIGH
  | CRITICAL
deriving Repr, DecidableEq

/-- Embedding of `models.AnomalyStatus`. -/
inductive AnomalyStatus where
  | NORMAL
  | REVIEW_REQUIRED
  | CRITICAL
deriving Repr, DecidableEq

/-- Embedding of `models.Anomaly`. -/
structure Anomaly where
  type : String
  description : String
  severity : SeverityLevel
  affected_field : String
  suggested_action : Option String := none
  confidence : ℚ
deriving Repr, DecidableEq

/-- Embedding of `models.AnomalyDetection` (the free-text `review_notes` field, never
read back by any computation, is omitted). -/
structure AnomalyDetection where
  has_anomalies : Bool
  anomalies : List Anomaly
  overall_status : AnomalyStatus
  confidence_score : ℚ
deriving Repr, DecidableEq

/-- Embedding of `AnomalyDetectorAgent._detect_calculation_anomalies`: dereferences
`salary_data.basic_salary` with no `None` guard, so a missing salary
breakdown raises `AttributeError`. -/
def detectCalculationAnomalies (salary_data : Option SalaryBreakdown) :
    Except PyError (List Anomaly) :=
  match salary_data with
  | none =>
    .error (.attributeError "NoneType object has no attribute basic_salary")
  | some sd =>
    let calculated_gross := sd.basic_salary + sd.hra + sd.allowances
    let total_deductions := sumDeductions sd.deductions
    let calculated_net := sd.gross_salary - total_deductions
    .ok
      ((if |calculated_gross - sd.gross_salary| > 10 then
          [{ type := "calculation_error",
             description := "Gross salary mismatch: Components sum to " ++
               toString calculated_gross ++ " but gross is " ++
               toString sd.gross_salary,
             severity := .HIGH, affected_field := "gross_salary",
             suggested_action := some "Verify salary component calculations",
             confidence := 0.95 }]
        else []) ++
      (if |calculated_net - sd.net_salary| > 1 then
          [{ type := "calculation_error",
             description := "Net salary calculation error: Expected " ++
               toString calculated_net ++ ", Got " ++ toString sd.net_salary,
             severity := .HIGH, affected_field := "net_salary",
             suggested_action :=
               some "Recalculate net salary as gross minus total deductions",
             confidence := 0.99 }]
        else []) ++
      (if sd.net_salary < 0 then
          [{ type := "calculation_error",
             description := "Net salary is negative",
             severity := .CRITICAL, affected_field := "net_salary",
             suggested_action :=
               some "Review deductions - total deductions exceed gross salary",
             confidence := 1 }]
        else []))

/-- Embedding of `AnomalyDetectorAgent._detect_data_inconsistencies`: guards a missing
contract (`if not contract_data: return []`) but then dereferences
`salary_data` unguarded. -/
def detectDataInconsistencies (contract_data : Option ContractData)
    (salary_data : Option SalaryBreakdown) : Except PyError (List Anomaly) :=
  match contract_data with
  | none => .ok []
  | some c =>
    match salary_data with
    | none =>
      .error (.attributeError "NoneType object has no attribute gross_salary")
    | some sd =>
      .ok
        ((match c.salary_structure.gross with
          | some contract_gross =>
            -- `if contract_gross and abs(...) > 100.0:`
            if contract_gross ≠ 0 ∧ |contract_gross - sd.gross_salary| > 100 then
              [{ type := "data_inconsistency",
                 description := "Contract gross (" ++ toString contract_gross ++
                   ") differs from calculated gross (" ++
                   toString sd.gross_salary ++ ")",
                 severity := .MEDIUM, affected_field := "gross_salary",
                 suggested_action := some
                   "Verify contract interpretation and salary calculations",
                 confidence := 0.85 }]
            else []
          | none => []) ++
        (match c.salary_structure.basic with
          | some contract_basic =>
            if contract_basic ≠ 0 ∧ |contract_basic - sd.basic_salary| > 50 then
              [{ type := "data_inconsistency",
                 description := "Contract basic (" ++ toString contract_basic ++
                   ") differs from calculated basic (" ++
                   toString sd.basic_salary ++ ")",
                 severity := .MEDIUM, affected_field := "basic_salary",
                 suggested_action := some
                   "Verify basic salary interpretation from contract",
                 confidence := 0.80 }]
            else []
          | none => []))

/-- Embedding of `AnomalyDetectorAgent._detect_compliance_anomalies` (total: guards the
missing-input case). -/
def detectComplianceAnomalies (compliance_data : Option ComplianceValidation) :
    List Anomaly :=
  match compliance_data with
  | none => []
  | some c =>
    if c.compliance_status = ComplianceStatus.NON_COMPLIANT then
      c.issues.map (fun issue =>
        { type := "compliance_issue",
          description := "Compliance violation: " ++ issue,
          severity := .HIGH, affected_field := "deductions",
          suggested_action := some "Apply correct compliance rules",
          confidence := 0.90 })
    else []

/-- Embedding of `AnomalyDetectorAgent._detect_outlier_values`: divides `basic_salary`
and the deduction sum by `gross_salary` with no zero guard and
dereferences `salary_data` unguarded. -/
def detectOutlierValues (salary_data : Option SalaryBreakdown) :
    Except PyError (List Anomaly) :=
  match salary_data with
  | none =>
    .error (.attributeError "NoneType object has no attribute basic_salary")
  | some sd =>
    if sd.gross_salary = 0 then .error .zeroDivisionError
    else
      let basic_percentage := sd.basic_salary / sd.gross_salary * 100
      let total_deduction_percentage :=
        sumDeductions sd.deductions / sd.gross_salary * 100
      .ok
        ((if basic_percentage > 70 then
            [{ type := "data_inconsistency",
               description := "Basic salary is " ++ toString basic_percentage ++
                 "% of gross (unusually high)",
               severity := .LOW, affected_field := "basic_salary",
               suggested_action := some "Verify salary structure breakdown",
               confidence := 0.70 }]
          else if basic_percentage < 20 then
            [{ type := "data_inconsistency",
               description := "Basic salary is only " ++
                 toString basic_percentage ++ "% of gross (unusually low)",
               severity := .MEDIUM, affected_field := "basic_salary",
               suggested_action := some "Verify basic salary calculation",
               confidence := 0.75 }]
          else []) ++
        (if total_deduction_percentage > 40 then
            [{ type := "calculation_error",
               description := "Total deductions are " ++
                 toString total_deduction_percentage ++
                 "% of gross salary (unusually high)",
               severity := .MEDIUM, affected_field := "deductions",
               suggested_action := some "Review all deductions for accuracy",
               confidence := 0.80 }]
          else []))

/-- Embedding of `AnomalyDetectorAgent._determine_overall_status`. -/
def determineOverallStatus (anomalies : List Anomaly) : AnomalyStatus :=
  if anomalies = [] then .NORMAL
  else
    let critical_count :=
      anomalies.countP (fun a => a.severity = SeverityLevel.CRITICAL)
    let high_count :=
      anomalies.countP (fun a => a.severity = SeverityLevel.HIGH)
    if critical_count > 0 then .CRITICAL
    else if high_count > 2 ∨ anomalies.length > 5 then .CRITICAL
    else .REVIEW_REQUIRED

/-- Embedding of `AnomalyDetectorAgent._calculate_anomaly_confidence`. -/
def calcAnomalyConfidence (anomalies : List Anomaly) : ℚ :=
  if anomalies = [] then 0.95
  else
    round2 ((anomalies.map (fun a => a.confidence)).sum /
      (anomalies.length : ℚ))

/-- Embedding of `AnomalyDetectorAgent._process`: sequences the four checks, any raised
exception propagating to the caller. -/
def anomalyProcess (contract_data : Option ContractData)
    (salary_data : Option SalaryBreakdown)
    (compliance_data : Option ComplianceValidation) :
    Except PyError AnomalyDetection := do
  let calc_anomalies ← detectCalculationAnomalies salary_data
  let data_anomalies ← detectDataInconsistencies contract_data salary_data
  let compliance_anomalies := detectComplianceAnomalies compliance_data
  let outlier_anomalies ← detectOutlierValues salary_data
  let anomalies := calc_anomalies ++ data_anomalies ++ compliance_anomalies ++
    outlier_anomalies
  return { has_anomalies := anomalies.length > 0,
           anomalies := anomalies,
           overall_status := determineOverallStatus anomalies,
           confidence_score := calcAnomalyConfidence anomalies }

/-- The slice of `models.AgentResult` that `BaseAgent.execute` determines
from `_process` (name and timing omitted). -/
structure AgentOutcome (α : Type) where
  success : Bool
  output : Option α
  error_message : Option String
deriving Repr

/-- Embedding of `BaseAgent.execute`: wraps `_process`, catching any exception into a
failed `AgentResult`. -/
def executeAgent {α : Type} (processResult : Except PyError α) :
    AgentOutcome α :=
  match processResult with
  | .ok r => { success := true, output := some r, error_message := none }
  | .error (.attributeError m) =>
    { success := false, output := none, error_message := some m }
  | .error .zeroDivisionError =>
    { success := false, output := none,
      error_message := some "float division by zero" }

/-! ## PayrollAgenticWorkflow (`src/payroll_workflow.py`)

The LangGraph graph is a fixed linear chain
contract_reader -> salary_breakdown -> compliance_mapper ->
anomaly_detector -> paystub_generator -> finalize_result, so the run is
embedded as function composition of the node functions over the workflow
state.  Each agent's `execute` outcome is a parameter (`Except String`
mirroring `AgentResult.success` / `error_message`); the nodes themselves
are payload-polymorphic plumbing, exactly as in the source. -/

/-- The `agent_results` / `errors` slice of `PayrollWorkflowState` (the
timing, step-name and message fields play no part in any claim). -/
structure WFState (C S V A P : Type) where
  contract_reader : Option (Except String C) := none
  salary_breakdown : Option (Except String S) := none
  compliance_mapper : Option (Except String V) := none
  anomaly_detector : Option (Except String A) := none
  paystub_generator : Option (Except String P) := none
  errors : List String := []

/-- Embedding of `result.output` when the result is a success, else `None`. -/
def exceptOutput {α : Type} : Except String α → Option α
  | .ok x => some x
  | .error _ => none

/-- Embedding of `result.output if result and result.success else None` — the view every
node takes of a previous stage. -/
def stageOutput {α : Type} : Option (Except String α) → Option α
  | some r => exceptOutput r
  | none => none

/-- Embedding of `result and result.success` for a recorded stage. -/
def stageOk {α : Type} (r : Option (Except String α)) : Bool :=
  (stageOutput r).isSome

/-- The error string a node appends when its agent fails
(`state["errors"].append(f"{stage} failed: {message}")`), as the list of
appended entries — empty on success. -/
def failErrors {α : Type} (stage : String) (r : Except String α) :
    List String :=
  match r with
  | .error m => [stage ++ " failed: " ++ m]
  | .ok _ => []

/-- Embedding of `PayrollAgenticWorkflow._contract_reader_node` (employee-id extraction,
which touches no claim, is omitted). -/
def contractReaderNode {C S V A P : Type} (crOutcome : Except String C)
    (st : WFState C S V A P) : WFState C S V A P :=
  { st with contract_reader := some crOutcome,
            errors := st.errors ++ failErrors "Contract Reader" crOutcome }

/-- Embedding of `PayrollAgenticWorkflow._salary_breakdown_node`: skips (recording
nothing) when the contract stage is absent or failed. -/
def salaryBreakdownNode {C S V A P : Type} (sbOutcome : C → Except String S)
    (st : WFState C S V A P) : WFState C S V A P :=
  match stageOutput st.contract_reader with
  | none =>
    { st with errors := st.errors ++
        ["Cannot proceed with salary breakdown - contract reading failed"] }
  | some contract_data =>
    let r := sbOutcome contract_data
    { st with salary_breakdown := some r,
              errors := st.errors ++ failErrors "Salary Breakdown" r }

/-- Embedding of `PayrollAgenticWorkflow._compliance_mapper_node`: skips when the salary
stage is absent or failed. -/
def complianceMapperNode {C S V A P : Type} (cmOutcome : S → Except String V)
    (st : WFState C S V A P) : WFState C S V A P :=
  match stageOutput st.salary_breakdown with
  | none =>
    { st with errors := st.errors ++
        ["Cannot proceed with compliance mapping - salary breakdown failed"] }
  | some salary_data =>
    let r := cmOutcome salary_data
    { st with compliance_mapper := some r,
              errors := st.errors ++ failErrors "Compliance Mapper" r }

/-- Embedding of `PayrollAgenticWorkflow._anomaly_detector_node` (runs unconditionally,
passing each prior output or `None`). -/
def anomalyDetectorNode {C S V A P : Type}
    (adOutcome : Option C → Option S → Option V → Except String A)
    (st : WFState C S V A P) : WFState C S V A P :=
  let r := adOutcome (stageOutput st.contract_reader)
    (stageOutput st.salary_breakdown) (stageOutput st.compliance_mapper)
  { st with anomaly_detector := some r,
            errors := st.errors ++ failErrors "Anomaly Detector" r }

/-- Embedding of `PayrollAgenticWorkflow._paystub_generator_node`: requires both the
contract and salary stages to have succeeded. -/
def paystubGeneratorNode {C S V A P : Type}
    (pgOutcome : C → S → Option V → Except String P)
    (st : WFState C S V A P) : WFState C S V A P :=
  match stageOutput st.contract_reader, stageOutput st.salary_breakdown with
  | some contract_data, some salary_data =>
    let r := pgOutcome contract_data salary_data
      (stageOutput st.compliance_mapper)
    { st with paystub_generator := some r,
              errors := st.errors ++ failErrors "Paystub Generator" r }
  | _, _ =>
    { st with errors := st.errors ++
        ["Cannot generate paystub - missing required data"] }

/-- The slice of `models.ProcessingResult` built by
`_finalize_result_node` that the claims are about (id, timing and
per-agent logs omitted). -/
structure ProcessingResult (C S V A P : Type) where
  success : Bool
  contract_data : Option C
  salary_data : Option S
  compliance_data : Option V
  anomalies_data : Option A
  paystub_data : Option P
  errors : List String

/-- Embedding of `PayrollAgenticWorkflow._finalize_result_node`: overall success is the
conjunction over the critical agents `contract_reader` and
`salary_breakdown`; each data field carries a stage's output only if that
stage was recorded and succeeded. -/
def finalizeResultNode {C S V A P : Type} (st : WFState C S V A P) :
    ProcessingResult C S V A P :=
  { success := stageOk st.contract_reader && stageOk st.salary_breakdown,
    contract_data := stageOutput st.contract_reader,
    salary_data := stageOutput st.salary_breakdown,
    compliance_data := stageOutput st.compliance_mapper,
    anomalies_data := stageOutput st.anomaly_detector,
    paystub_data := stageOutput st.paystub_generator,
    errors := st.errors }

/-- One workflow run: the linear LangGraph chain applied to the empty
initial state. -/
def runWorkflow {C S V A P : Type} (crOutcome : Except String C)
    (sbOutcome : C → Except String S) (cmOutcome : S → Except String V)
    (adOutcome : Option C → Option S → Option V → Except String A)
    (pgOutcome : C → S → Option V → Except String P) :
    ProcessingResult C S V A P :=
  finalizeResultNode
    (paystubGeneratorNode pgOutcome
      (anomalyDetectorNode adOutcome
        (complianceMapperNode cmOutcome
          (salaryBreakdownNode sbOutcome
            (contractReaderNode crOutcome {})))))

/-! ## Helper lemmas -/

theorem round2_zero : round2 0 = 0 := by
  simp [round2]

theorem round2_mono {x y : ℚ} (h : x ≤ y) : round2 x ≤ round2 y := by
  unfold round2
  have hr : round (x * 100) ≤ round (y * 100) := by
    rw [round_eq, round_eq]
    exact Int.floor_mono (by linarith)
  have hq : ((round (x * 100) : ℤ) : ℚ) ≤ ((round (y * 100) : ℤ) : ℚ) := by
    exact_mod_cast hr
  linarith

theorem round2_cap : round2 1800 = 1800 := by
  norm_num [round2]

/-! ## Claim theorems -/

/-- C1, counterexample: on the `ContractFields` input with basic, HRA,
allowances and declared gross all absent, `SalaryBreakdownAgent._process`
does not fail — it returns the all-zero `SalaryBreakdown`. -/
theorem c1_all_absent_counterexample :
    salaryProcess {} =
      { gross_salary := 0, basic_salary := 0, hra := 0, allowances := 0,
        deductions := {}, net_salary := 0, annual_gross := 0,
        annual_net := 0 } := by
  have hk : strContains "karnataka" (strLower "Karnataka") = true := by decide
  norm_num [salaryProcess, calcGrossComponents, calcDeductions,
    effectiveLocation, calcProfessionalTax, calcTds, truthyNum,
    sumDeductions, hk, round2, round_eq]

/-- C1, amended: for every `ContractFields` input whose basic, HRA,
allowances and declared gross are all absent,
`SalaryBreakdownAgent._process` succeeds (it is total), returning a
breakdown with zero basic, zero HRA, zero PF and gross equal to the sum of
the remaining allowance fields — the all-zero breakdown when those are
also absent. -/
theorem c1_all_absent_returns_zero_breakdown (cd : ContractData)
    (hb : cd.salary_structure.basic = none)
    (hh : cd.salary_structure.hra = none)
    (ha : cd.salary_structure.allowances = none)
    (hg : cd.salary_structure.gross = none) :
    (salaryProcess cd).basic_salary = 0 ∧ (salaryProcess cd).hra = 0 ∧
    (salaryProcess cd).gross_salary =
      cd.salary_structure.special_allowance.getD 0 +
      cd.salary_structure.medical_allowance.getD 0 +
      cd.salary_structure.transport_allowance.getD 0 +
      cd.salary_structure.meal_allowance.getD 0 ∧
    (salaryProcess cd).deductions.pf = 0 := by
  refine ⟨?_, ?_, ?_, ?_⟩ <;>
    simp [salaryProcess, calcGrossComponents, calcDeductions, hb, hh, ha, hg,
      truthyNum, round2_zero]

/-- Closed witness for `c1_all_absent_returns_zero_breakdown`. -/
theorem c1_all_absent_witness :
    (salaryProcess
        { salary_structure := { special_allowance := some 100 } }).basic_salary
        = 0 ∧
    (salaryProcess
        { salary_structure := { special_allowance := some 100 } }).hra = 0 ∧
    (salaryProcess
        { salary_structure := { special_allowance := some 100 } }).gross_salary
        = (some (100 : ℚ)).getD 0 + (none : Option ℚ).getD 0 +
          (none : Option ℚ).getD 0 + (none : Option ℚ).getD 0 ∧
    (salaryProcess
        { salary_structure := { special_allowance := some 100 } }).deductions.pf
        = 0 :=
  c1_all_absent_returns_zero_breakdown
    { salary_structure := { special_allowance := some 100 } } rfl rfl rfl rfl

/-- C5, counterexample: for the contract with basic absent, HRA 5000 and
declared gross 10000, the computed basic component is 0 and the PF
deduction is 0, not the claimed round(min(0.12 × 0.40 × gross, 1800), 2)
= 240 (the 40%-of-gross estimate only fires when basic, HRA and
allowances are all zero). -/
theorem c5_pf_counterexample :
    (salaryProcess
        { salary_structure := { hra := some 5000, gross := some 10000 } }
      ).basic_salary = 0 ∧
    (salaryProcess
        { salary_structure := { hra := some 5000, gross := some 10000 } }
      ).deductions.pf = 0 ∧
    (salaryProcess
        { salary_structure := { hra := some 5000, gross := some 10000 } }
      ).gross_salary = 5000 ∧
    round2 (min (0.12 * (0.4 * 5000)) 1800) = 240 ∧ (0 : ℚ) ≠ 240 := by
  refine ⟨?_, ?_, ?_, ?_, by norm_num⟩ <;>
    norm_num [salaryProcess, calcGrossComponents, calcDeductions, truthyNum,
      round2, round_eq]

/-- C5, amended: the PF deduction of every breakdown equals
round(min(0.12 × basic, 1800), 2) when the computed basic component is
positive and 0 when it is zero or negative; the 40%-of-gross estimate
applies exactly when a nonzero gross is declared and basic, HRA and
allowances sum to zero, in which case PF =
round(min(0.12 × (0.40 × gross)), 1800), 2); and PF is monotone in basic
up to the 15000 cap point and constantly 1800 above it. -/
theorem c5_pf_formula :
    (∀ cd : ContractData,
      (salaryProcess cd).deductions.pf =
        if (salaryProcess cd).basic_salary > 0 then
          round2 (min ((salaryProcess cd).basic_salary * 0.12) 1800)
        else 0) ∧
    (∀ (cd : ContractData) (g : ℚ), cd.salary_structure.gross = some g →
      0 < g →
      cd.salary_structure.basic.getD 0 + cd.salary_structure.hra.getD 0 +
        cd.salary_structure.allowances.getD 0 = 0 →
      (salaryProcess cd).deductions.pf =
        round2 (min (0.12 * (0.4 * g)) 1800)) ∧
    (∀ (gc₁ gc₂ : GrossComponents) (info : EmployeeInfo), 0 < gc₁.basic →
      gc₁.basic ≤ gc₂.basic →
      (calcDeductions gc₁ info).pf ≤ (calcDeductions gc₂ info).pf) ∧
    (∀ (gc : GrossComponents) (info : EmployeeInfo), 15000 ≤ gc.basic →
      (calcDeductions gc info).pf = 1800) := by
  refine ⟨?_, ?_, ?_, ?_⟩
  · intro cd
    simp only [salaryProcess, calcDeductions]
    split_ifs with h
    · rfl
    · exact round2_zero
  · intro cd g hg hpos hsum
    have hne : g ≠ 0 := ne_of_gt hpos
    have hb : (0 : ℚ) < g * 0.4 := by
      have : (0 : ℚ) < 0.4 := by norm_num
      exact mul_pos hpos this
    have harg : g * 0.4 * 0.12 = 0.12 * (0.4 * g) := by ring
    simp [salaryProcess, calcDeductions, calcGrossComponents, hg, truthyNum,
      hne, hsum, hb, harg]
  · intro gc₁ gc₂ info h₁ h₂
    have h₂pos : 0 < gc₂.basic := lt_of_lt_of_le h₁ h₂
    simp only [calcDeductions, if_pos h₁, if_pos h₂pos]
    exact round2_mono
      (min_le_min (mul_le_mul_of_nonneg_right h₂ (by norm_num)) le_rfl)
  · intro gc info h
    have hpos : 0 < gc.basic := lt_of_lt_of_le (by norm_num) h
    have hcap : (1800 : ℚ) ≤ gc.basic * 0.12 := by linarith
    simp only [calcDeductions, if_pos hpos, min_eq_right hcap, round2_cap]

/-- Closed witness for `c5_pf_formula`: the estimate case at declared gross
20000 (PF = round(min(0.12 × 8000, 1800), 2) = 960), monotonicity between
basics 10000 and 12000, and constancy at basic 16000. -/
theorem c5_pf_formula_witness :
    (salaryProcess { salary_structure := { gross := some 20000 } }
      ).deductions.pf = round2 (min (0.12 * (0.4 * 20000)) 1800) ∧
    (calcDeductions
        { basic := 10000, hra := 0, allowances := 0, total := 10000 }
        {}).pf ≤
      (calcDeductions
        { basic := 12000, hra := 0, allowances := 0, total := 12000 }
        {}).pf ∧
    (calcDeductions
        { basic := 16000, hra := 0, allowances := 0, total := 16000 }
        {}).pf = 1800 :=
  ⟨c5_pf_formula.2.1 { salary_structure := { gross := some 20000 } } 20000
      rfl (by norm_num) (by norm_num),
   c5_pf_formula.2.2.1 _ _ {} (by norm_num) (by norm_num),
   c5_pf_formula.2.2.2 _ {} (by norm_num)⟩

/-- C6, counterexample: with the is-annual flag set, basic 120000 and
special allowance 1200, the conversion divides basic (to 10000) but
leaves the special allowance at 1200 instead of 100 — not every populated
salary figure is divided by 12. -/
theorem c6_annual_counterexample :
    (structureSalaryConversion
        { basic := some 120000, special_allowance := some 1200,
          is_annual := some true }).basic = some 10000 ∧
    (structureSalaryConversion
        { basic := some 120000, special_allowance := some 1200,
          is_annual := some true }).special_allowance = some 1200 ∧
    (1200 : ℚ) / 12 ≠ 1200 := by
  refine ⟨?_, ?_, by norm_num⟩ <;>
    norm_num [structureSalaryConversion, divideIfTruthy]

/-- C6, amended: when the is-annual flag is set, the conversion divides
exactly the four fields basic, HRA, allowances and declared gross by 12
(skipping `None` and zero values), leaves the special, medical, transport
and meal allowances and variable pay and bonus untouched, clears the
flag, and is therefore applied exactly once (a second application is the
identity). -/
theorem c6_annual_conversion_fields (s : SalaryStructure)
    (h : s.is_annual = some true) :
    (structureSalaryConversion s).basic = divideIfTruthy s.basic ∧
    (structureSalaryConversion s).hra = divideIfTruthy s.hra ∧
    (structureSalaryConversion s).allowances = divideIfTruthy s.allowances ∧
    (structureSalaryConversion s).gross = divideIfTruthy s.gross ∧
    (structureSalaryConversion s).special_allowance = s.special_allowance ∧
    (structureSalaryConversion s).medical_allowance = s.medical_allowance ∧
    (structureSalaryConversion s).transport_allowance =
      s.transport_allowance ∧
    (structureSalaryConversion s).meal_allowance = s.meal_allowance ∧
    (structureSalaryConversion s).variable_pay = s.variable_pay ∧
    (structureSalaryConversion s).bonus = s.bonus ∧
    (structureSalaryConversion s).is_annual = some false ∧
    structureSalaryConversion (structureSalaryConversion s) =
      structureSalaryConversion s := by
  simp [structureSalaryConversion, h]

/-- Closed witness for `c6_annual_conversion_fields` at a concrete annual
structure. -/
theorem c6_annual_conversion_witness :
    (structureSalaryConversion
        { basic := some 24000, meal_allowance := some 600,
          is_annual := some true }).basic = divideIfTruthy (some 24000) ∧
    (structureSalaryConversion
        { basic := some 24000, meal_allowance := some 600,
          is_annual := some true }).meal_allowance = some 600 ∧
    (structureSalaryConversion
        { basic := some 24000, meal_allowance := some 600,
          is_annual := some true }).is_annual = some false := by
  have h := c6_annual_conversion_fields
    { basic := some 24000, meal_allowance := some 600,
      is_annual := some true } rfl
  exact ⟨h.1, h.2.2.2.2.2.2.2.1, h.2.2.2.2.2.2.2.2.2.2.1⟩

/-- C7: an internal fault in the RuleStore retrieval backend is invisible
in the ComplianceValidator's output — `_process` completes (it is total)
and returns the same `ComplianceValidation` (same status, issues,
validated deductions, recommendations, applied rules and confidence) as
under any other backend, because `search_compliance_rules` degrades every
fault to an empty retrieval and the validation logic reads only the
built-in default rule tables. -/
theorem c7_retrieval_fault_invisible (faulty healthy : RuleOracle)
    (sb : SalaryBreakdown) :
    complianceProcess faulty sb = complianceProcess healthy sb := rfl

/-- C3: every `SalaryBreakdown` produced by `SalaryBreakdownAgent._process`
satisfies net = max 0 (gross − Σ of the seven deduction fields),
annual gross = 12 × gross, annual net = 12 × net, and net is never
negative. -/
theorem c3_breakdown_invariants (cd : ContractData) :
    (salaryProcess cd).net_salary =
      max 0 ((salaryProcess cd).gross_salary -
        sumDeductions (salaryProcess cd).deductions) ∧
    (salaryProcess cd).annual_gross = 12 * (salaryProcess cd).gross_salary ∧
    (salaryProcess cd).annual_net = 12 * (salaryProcess cd).net_salary ∧
    0 ≤ (salaryProcess cd).net_salary := by
  refine ⟨rfl, ?_, ?_, ?_⟩
  · simp [salaryProcess, mul_comm]
  · simp [salaryProcess, mul_comm]
  · exact le_max_left 0 _

/-- C4: in every breakdown produced by `SalaryBreakdownAgent._process`, the
ESI deduction is round(0.0075 × gross, 2) when gross ≤ 21000 and 0 when
gross > 21000 — a step exactly at 21000. -/
theorem c4_esi_step (cd : ContractData) :
    (salaryProcess cd).deductions.esi =
      if (salaryProcess cd).gross_salary ≤ 21000 then
        round2 (0.0075 * (salaryProcess cd).gross_salary)
      else 0 := by
  simp only [salaryProcess, calcDeductions]
  split_ifs with h
  · rw [mul_comm]
  · exact round2_zero

/-- C8: the detector's overall status is Normal iff the anomaly list is
empty; Critical iff it contains a Critical anomaly, or more than 2 High
anomalies, or more than 5 anomalies in total; and ReviewRequired in every
other non-empty case. -/
theorem c8_overall_status_characterisation (anomalies : List Anomaly) :
    (determineOverallStatus anomalies = AnomalyStatus.NORMAL ↔
      anomalies = []) ∧
    (determineOverallStatus anomalies = AnomalyStatus.CRITICAL ↔
      ((∃ a ∈ anomalies, a.severity = SeverityLevel.CRITICAL) ∨
        2 < anomalies.countP (fun a => a.severity = SeverityLevel.HIGH) ∨
        5 < anomalies.length)) ∧
    (determineOverallStatus anomalies = AnomalyStatus.REVIEW_REQUIRED ↔
      (anomalies ≠ [] ∧
        ¬((∃ a ∈ anomalies, a.severity = SeverityLevel.CRITICAL) ∨
          2 < anomalies.countP (fun a => a.severity = SeverityLevel.HIGH) ∨
          5 < anomalies.length))) := by
  have hcrit :
      (0 < anomalies.countP (fun a => a.severity = SeverityLevel.CRITICAL)) ↔
        ∃ a ∈ anomalies, a.severity = SeverityLevel.CRITICAL := by
    rw [List.countP_pos_iff]
    simp
  simp only [determineOverallStatus]
  split_ifs with he hc hh
  · subst he
    simp at hcrit ⊢
  · refine ⟨by simp [he], ?_, ?_⟩
    · simp only [true_iff]
      exact Or.inl (hcrit.mp hc)
    · simp only [false_iff, not_and, not_not]
      intro _
      exact Or.inl (hcrit.mp hc)
  · refine ⟨by simp [he], ?_, ?_⟩
    · simp only [true_iff]
      exact Or.inr hh
    · simp only [false_iff, not_and, not_not]
      intro _
      exact Or.inr hh
  · refine ⟨by simp [he], ?_, ?_⟩
    · simp only [false_iff]
      intro h
      rcases h with h | h
      · exact hc (hcrit.mpr h)
      · exact hh h
    · simp only [true_iff]
      refine ⟨he, ?_⟩
      intro h
      rcases h with h | h
      · exact hc (hcrit.mpr h)
      · exact hh h

/-- C9, code-bug evidence: with all three inputs absent,
`AnomalyDetectorAgent._process` raises `AttributeError` (dereferencing
`salary_data.basic_salary` on `None` in `_detect_calculation_anomalies`)
instead of returning an empty no-anomaly report, and the stage's
`AgentResult` has success = false. -/
theorem c9_detector_raises_on_absent_input :
    anomalyProcess none none none =
      .error (.attributeError "NoneType object has no attribute basic_salary") ∧
    (executeAgent (anomalyProcess none none none)).success = false :=
  ⟨rfl, rfl⟩

/-- C10: whenever the salary breakdown passed to the anomaly detector has
gross salary 0, the outlier check's unguarded division raises
`ZeroDivisionError`, so `_process` fails and the stage's `AgentResult`
has success = false; with a nonzero gross the stage completes without
error. -/
theorem c10_outlier_division_by_zero_gross (contract : Option ContractData)
    (compliance : Option ComplianceValidation) (sb : SalaryBreakdown) :
    (sb.gross_salary = 0 →
      anomalyProcess contract (some sb) compliance =
        .error PyError.zeroDivisionError ∧
      (executeAgent
        (anomalyProcess contract (some sb) compliance)).success = false) ∧
    (sb.gross_salary ≠ 0 →
      (anomalyProcess contract (some sb) compliance).isOk = true) := by
  constructor
  · intro h
    have heq : anomalyProcess contract (some sb) compliance =
        .error PyError.zeroDivisionError := by
      cases contract <;>
        simp [anomalyProcess, detectCalculationAnomalies,
          detectDataInconsistencies, detectOutlierValues, h, Bind.bind,
          Except.bind]
    rw [heq]
    exact ⟨rfl, rfl⟩
  · intro h
    cases contract <;>
      simp [anomalyProcess, detectCalculationAnomalies,
        detectDataInconsistencies, detectOutlierValues, h, Bind.bind,
        Except.bind, Except.isOk, Except.toBool, Pure.pure, Except.pure]

/-- Closed witness for `c10_outlier_division_by_zero_gross`: at gross 0 the
stage raises; at gross 5000 it completes. -/
theorem c10_outlier_division_witness :
    (anomalyProcess none
        (some { gross_salary := 0, basic_salary := 0, hra := 0,
                allowances := 0, deductions := {}, net_salary := 0,
                annual_gross := 0, annual_net := 0 }) none =
      .error PyError.zeroDivisionError) ∧
    (anomalyProcess none
        (some { gross_salary := 5000, basic_salary := 2000, hra := 1000,
                allowances := 2000, deductions := {}, net_salary := 5000,
                annual_gross := 60000, annual_net := 60000 }) none).isOk =
      true :=
  ⟨((c10_outlier_division_by_zero_gross none none _).1 rfl).1,
   (c10_outlier_division_by_zero_gross none none _).2 (by norm_num)⟩

/-- C2: the final record's success flag is true iff the contract-reader and
salary-breakdown stages both succeeded; a failure of the
compliance-mapper, anomaly-detector or paystub stage leaves the
corresponding record field `None`, appends that stage's error string to
the record's error list, and does not change the success flag. -/
theorem c2_workflow_success_semantics {C S V A P : Type}
    (crOutcome : Except String C) (sbOutcome : C → Except String S)
    (cmOutcome : S → Except String V)
    (adOutcome : Option C → Option S → Option V → Except String A)
    (pgOutcome : C → S → Option V → Except String P) :
    ((runWorkflow crOutcome sbOutcome cmOutcome adOutcome pgOutcome).success =
        true ↔ ∃ c, crOutcome = .ok c ∧ ∃ s, sbOutcome c = .ok s) ∧
    (∀ c s m, crOutcome = .ok c → sbOutcome c = .ok s →
      cmOutcome s = .error m →
      (runWorkflow crOutcome sbOutcome cmOutcome adOutcome
        pgOutcome).success = true ∧
      (runWorkflow crOutcome sbOutcome cmOutcome adOutcome
        pgOutcome).compliance_data = none ∧
      ("Compliance Mapper failed: " ++ m) ∈
        (runWorkflow crOutcome sbOutcome cmOutcome adOutcome
          pgOutcome).errors) ∧
    (∀ c s m, crOutcome = .ok c → sbOutcome c = .ok s →
      adOutcome (some c) (some s) (exceptOutput (cmOutcome s)) = .error m →
      (runWorkflow crOutcome sbOutcome cmOutcome adOutcome
        pgOutcome).anomalies_data = none ∧
      ("Anomaly Detector failed: " ++ m) ∈
        (runWorkflow crOutcome sbOutcome cmOutcome adOutcome
          pgOutcome).errors) ∧
    (∀ c s m, crOutcome = .ok c → sbOutcome c = .ok s →
      pgOutcome c s (exceptOutput (cmOutcome s)) = .error m →
      (runWorkflow crOutcome sbOutcome cmOutcome adOutcome
        pgOutcome).paystub_data = none ∧
      ("Paystub Generator failed: " ++ m) ∈
        (runWorkflow crOutcome sbOutcome cmOutcome adOutcome
          pgOutcome).errors) := by
  refine ⟨?_, ?_, ?_, ?_⟩
  · cases hcr : crOutcome with
    | error m =>
      simp [runWorkflow, contractReaderNode, salaryBreakdownNode,
        complianceMapperNode, anomalyDetectorNode, paystubGeneratorNode,
        finalizeResultNode, stageOutput, exceptOutput, stageOk, failErrors]
    | ok c =>
      cases hsb : sbOutcome c with
      | error m =>
        simp [runWorkflow, contractReaderNode, salaryBreakdownNode,
          complianceMapperNode, anomalyDetectorNode, paystubGeneratorNode,
          finalizeResultNode, stageOutput, exceptOutput, stageOk, failErrors,
          hsb]
      | ok s =>
        simp [runWorkflow, contractReaderNode, salaryBreakdownNode,
          complianceMapperNode, anomalyDetectorNode, paystubGeneratorNode,
          finalizeResultNode, stageOutput, exceptOutput, stageOk, failErrors,
          hsb]
  · intro c s m hcr hsb hcm
    subst hcr
    simp [runWorkflow, contractReaderNode, salaryBreakdownNode,
      complianceMapperNode, anomalyDetectorNode, paystubGeneratorNode,
      finalizeResultNode, stageOutput, exceptOutput, stageOk, failErrors,
      hsb, hcm]
  · intro c s m hcr hsb had
    subst hcr
    simp only [exceptOutput] at had
    simp [runWorkflow, contractReaderNode, salaryBreakdownNode,
      complianceMapperNode, anomalyDetectorNode, paystubGeneratorNode,
      finalizeResultNode, stageOutput, exceptOutput, stageOk, failErrors,
      hsb, had]
  · intro c s m hcr hsb hpg
    subst hcr
    simp only [exceptOutput] at hpg
    simp [runWorkflow, contractReaderNode, salaryBreakdownNode,
      complianceMapperNode, anomalyDetectorNode, paystubGeneratorNode,
      finalizeResultNode, stageOutput, exceptOutput, stageOk, failErrors,
      hsb, hpg]

/-- Closed witness for `c2_workflow_success_semantics`: a run whose
contract and salary stages succeed while the three later stages fail is
still successful, with all three non-fatal fields absent and the three
error strings recorded. -/
theorem c2_workflow_witness :
    ((@runWorkflow Nat Nat Nat Nat Nat (.ok 1) (fun _ => .ok 2)
        (fun _ => .error "vboom") (fun _ _ _ => .error "aboom")
        (fun _ _ _ => .error "pboom")).success = true) ∧
    ((@runWorkflow Nat Nat Nat Nat Nat (.ok 1) (fun _ => .ok 2)
        (fun _ => .error "vboom") (fun _ _ _ => .error "aboom")
        (fun _ _ _ => .error "pboom")).compliance_data = none) ∧
    ("Compliance Mapper failed: vboom" ∈
      (@runWorkflow Nat Nat Nat Nat Nat (.ok 1) (fun _ => .ok 2)
        (fun _ => .error "vboom") (fun _ _ _ => .error "aboom")
        (fun _ _ _ => .error "pboom")).errors) ∧
    ((@runWorkflow Nat Nat Nat Nat Nat (.ok 1) (fun _ => .ok 2)
        (fun _ => .error "vboom") (fun _ _ _ => .error "aboom")
        (fun _ _ _ => .error "pboom")).anomalies_data = none) ∧
    ("Anomaly Detector failed: aboom" ∈
      (@runWorkflow Nat Nat Nat Nat Nat (.ok 1) (fun _ => .ok 2)
        (fun _ => .error "vboom") (fun _ _ _ => .error "aboom")
        (fun _ _ _ => .error "pboom")).errors) ∧
    ((@runWorkflow Nat Nat Nat Nat Nat (.ok 1) (fun _ => .ok 2)
        (fun _ => .error "vboom") (fun _ _ _ => .error "aboom")
        (fun _ _ _ => .error "pboom")).paystub_data = none) ∧
    ("Paystub Generator failed: pboom" ∈
      (@runWorkflow Nat Nat Nat Nat Nat (.ok 1) (fun _ => .ok 2)
        (fun _ => .error "vboom") (fun _ _ _ => .error "aboom")
        (fun _ _ _ => .error "pboom")).errors) := by
  have h := @c2_workflow_success_semantics Nat Nat Nat Nat Nat
    (.ok 1) (fun _ => .ok 2) (fun _ => .error "vboom")
    (fun _ _ _ => .error "aboom") (fun _ _ _ => .error "pboom")
  refine ⟨h.1.mpr ⟨1, rfl, 2, rfl⟩, ?_, ?_, ?_, ?_, ?_, ?_⟩
  · exact (h.2.1 1 2 "vboom" rfl rfl rfl).2.1
  · exact (h.2.1 1 2 "vboom" rfl rfl rfl).2.2
  · exact (h.2.2.1 1 2 "aboom" rfl rfl rfl).1
  · exact (h.2.2.1 1 2 "aboom" rfl rfl rfl).2
  · exact (h.2.2.2 1 2 "pboom" rfl rfl rfl).1
  · exact (h.2.2.2 1 2 "pboom" rfl rfl rfl).2

end AgentHR
